import Mathlib

/-!
Verification development for the `latvenergo_task` HTTP search façade.

The repository holds two variants of the same Express server:
`src/latvenergo-task/index.js` (content negotiation via `res.format`,
responses routed through `formatResponse`) and `src/unnamed/part_000`
(JSON-only, explicit `res.status(...)` calls).  Both share the same
validation block, pagination math and product transform; they differ in
how responses are sent.  The definitions below embed both variants.

Modelling conventions:
* JavaScript numbers are idealized as exact rationals plus `NaN`
  (IEEE-754 rounding is below the granularity of every claim).
* Wall-clock fields (`dateTime`) carried by some response objects are
  not modelled; they are never constrained by the specification.
* `JSON.parse` is embedded as an executable recursive-descent parser
  over the response text; fuel is the text length plus one, ample for
  every input considered here.
-/

namespace LatvenergoTask

/-- A JavaScript number at the granularity this program needs: `NaN` or an
exact rational (idealizing IEEE-754 doubles as exact rationals). -/
inductive JsNum where
  | nan : JsNum
  | val : ℚ → JsNum
deriving DecidableEq

/-- JavaScript `<` on numbers: every comparison involving `NaN` is false. -/
def JsNum.lt : JsNum → JsNum → Bool
  | .val a, .val b => decide (a < b)
  | _, _ => false

/-- JavaScript subtraction: `NaN` propagates. -/
def JsNum.sub : JsNum → JsNum → JsNum
  | .val a, .val b => .val (a - b)
  | _, _ => .nan

/-- JavaScript multiplication: `NaN` propagates. -/
def JsNum.mul : JsNum → JsNum → JsNum
  | .val a, .val b => .val (a * b)
  | _, _ => .nan

/-- JavaScript division: `NaN` propagates.  Division by zero is modelled as
`NaN` (JS yields an infinity there; in this program the only divisor is the
constant `100`, so the case never arises). -/
def JsNum.div : JsNum → JsNum → JsNum
  | .val a, .val b => if b = 0 then .nan else .val (a / b)
  | _, _ => .nan

/-- Rounding to two decimal places, picking the larger candidate on ties,
exactly as `Number.prototype.toFixed(2)` does on the idealized value. -/
def round2 (q : ℚ) : ℚ := (⌊q * 100 + 1 / 2⌋ : ℤ) / 100

/-- The source's `parseFloat(x.toFixed(2))` composite: round to two decimals;
`NaN` prints as `"NaN"` and parses back to `NaN`. -/
def JsNum.toFixed2 : JsNum → JsNum
  | .nan => .nan
  | .val q => .val (round2 q)

/-- A parsed JSON value, as produced by `JSON.parse`. -/
inductive Json where
  | null : Json
  | bool : Bool → Json
  | num : ℚ → Json
  | str : String → Json
  | arr : List Json → Json
  | obj : List (String × Json) → Json

/-- JavaScript member access `j[k]` on a parsed JSON value: `none` models
`undefined` (missing key, or access on a non-object).  Later duplicate keys
win, as in `JSON.parse`. -/
def Json.member : Json → String → Option Json
  | .obj fields, k => fields.foldl (fun acc kv => if kv.1 = k then some kv.2 else acc) none
  | _, _ => none

/-- Whitespace skipped by the JSON grammar. -/
def isJsonWs (c : Char) : Bool :=
  c = ' ' || c = '\t' || c = '\n' || c = '\r'

/-- Drop leading JSON whitespace. -/
def skipWs (cs : List Char) : List Char := cs.dropWhile isJsonWs

/-- Value of a hexadecimal digit. -/
def hexVal (c : Char) : Option ℕ :=
  if '0' ≤ c ∧ c ≤ '9' then some (c.toNat - 48)
  else if 'a' ≤ c ∧ c ≤ 'f' then some (c.toNat - 87)
  else if 'A' ≤ c ∧ c ≤ 'F' then some (c.toNat - 55)
  else none

/-- Single-character JSON string escapes. -/
def escChar (c : Char) : Option Char :=
  if c = '"' then some '"'
  else if c = '\\' then some '\\'
  else if c = '/' then some '/'
  else if c = 'b' then some (Char.ofNat 8)
  else if c = 'f' then some (Char.ofNat 12)
  else if c = 'n' then some '\n'
  else if c = 'r' then some '\r'
  else if c = 't' then some '\t'
  else none

/-- Parse the body of a JSON string literal (the opening quote already
consumed), accumulating characters in reverse. -/
def parseStringBody : List Char → List Char → Option (String × List Char)
  | acc, '"' :: rest => some (String.mk acc.reverse, rest)
  | acc, '\\' :: 'u' :: h1 :: h2 :: h3 :: h4 :: rest =>
    match hexVal h1, hexVal h2, hexVal h3, hexVal h4 with
    | some a, some b, some c, some d =>
      parseStringBody (Char.ofNat (((a * 16 + b) * 16 + c) * 16 + d) :: acc) rest
    | _, _, _, _ => none
  | acc, '\\' :: e :: rest =>
    match escChar e with
    | some ec => parseStringBody (ec :: acc) rest
    | none => none
  | acc, c :: rest => parseStringBody (c :: acc) rest
  | _, [] => none

/-- Digits to a natural number. -/
def digitsToNat (ds : List Char) : ℕ :=
  ds.foldl (fun n c => 10 * n + (c.toNat - 48)) 0

/-- Optional fractional part of a JSON number; returns its rational value. -/
def parseFrac : List Char → Option (ℚ × List Char)
  | '.' :: r =>
    let fds := r.takeWhile Char.isDigit
    if fds.isEmpty then none
    else some ((digitsToNat fds : ℚ) / (10 : ℚ) ^ fds.length, r.dropWhile Char.isDigit)
  | cs => some (0, cs)

/-- Optional exponent part of a JSON number; returns the power-of-ten factor. -/
def parseExp : List Char → Option (ℚ × List Char)
  | c :: r =>
    if c = 'e' || c = 'E' then
      match r with
      | '+' :: r1 =>
        let eds := r1.takeWhile Char.isDigit
        if eds.isEmpty then none
        else some ((10 : ℚ) ^ digitsToNat eds, r1.dropWhile Char.isDigit)
      | '-' :: r1 =>
        let eds := r1.takeWhile Char.isDigit
        if eds.isEmpty then none
        else some ((1 : ℚ) / (10 : ℚ) ^ digitsToNat eds, r1.dropWhile Char.isDigit)
      | r1 =>
        let eds := r1.takeWhile Char.isDigit
        if eds.isEmpty then none
        else some ((10 : ℚ) ^ digitsToNat eds, r1.dropWhile Char.isDigit)
    else some (1, c :: r)
  | [] => some (1, [])

/-- Parse a (possibly signed) JSON number into its exact rational value. -/
def parseNumber (cs : List Char) : Option (ℚ × List Char) :=
  let signed : Bool × List Char :=
    match cs with
    | '-' :: r => (true, r)
    | _ => (false, cs)
  let ds := signed.2.takeWhile Char.isDigit
  if ds.isEmpty then none
  else
    match parseFrac (signed.2.dropWhile Char.isDigit) with
    | none => none
    | some (f, rest1) =>
      match parseExp rest1 with
      | none => none
      | some (m, rest2) =>
        let mag : ℚ := ((digitsToNat ds : ℚ) + f) * m
        some (if signed.1 then -mag else mag, rest2)

/-- Recursive-descent parser for a JSON value, fuelled.  Array and object
tails are parsed by re-entering the same function with the opening bracket
re-prepended, which keeps the recursion structural in the fuel. -/
def parseValue : ℕ → List Char → Option (Json × List Char)
  | 0, _ => none
  | fuel + 1, cs =>
    match skipWs cs with
    | 'n' :: 'u' :: 'l' :: 'l' :: rest => some (.null, rest)
    | 't' :: 'r' :: 'u' :: 'e' :: rest => some (.bool true, rest)
    | 'f' :: 'a' :: 'l' :: 's' :: 'e' :: rest => some (.bool false, rest)
    | '"' :: rest => (parseStringBody [] rest).map (fun p => (.str p.1, p.2))
    | '[' :: rest =>
      (match skipWs rest with
       | ']' :: rest2 => some (.arr [], rest2)
       | cs1 =>
         match parseValue fuel cs1 with
         | none => none
         | some (v, rest2) =>
           match skipWs rest2 with
           | ']' :: rest3 => some (.arr [v], rest3)
           | ',' :: rest3 =>
             (match parseValue fuel ('[' :: rest3) with
              | some (.arr vs, rest4) => some (.arr (v :: vs), rest4)
              | _ => none)
           | _ => none)
    | '{' :: rest =>
      (match skipWs rest with
       | '}' :: rest2 => some (.obj [], rest2)
       | '"' :: rest2 =>
         (match parseStringBody [] rest2 with
          | none => none
          | some (key, rest3) =>
            match skipWs rest3 with
            | ':' :: rest4 =>
              (match parseValue fuel rest4 with
               | none => none
               | some (v, rest5) =>
                 match skipWs rest5 with
                 | '}' :: rest6 => some (.obj [(key, v)], rest6)
                 | ',' :: rest6 =>
                   (match parseValue fuel ('{' :: rest6) with
                    | some (.obj ms, rest7) => some (.obj ((key, v) :: ms), rest7)
                    | _ => none)
                 | _ => none)
            | _ => none)
       | _ => none)
    | cs0 => (parseNumber cs0).map (fun p => (.num p.1, p.2))

/-- The embedding of `JSON.parse`: parse one value and require only trailing
whitespace; any failure models the thrown `SyntaxError`. -/
def jsonParse (s : String) : Option Json :=
  match parseValue (s.length + 1) s.toList with
  | some (j, rest) => if (skipWs rest).isEmpty then some j else none
  | none => none

/-- JavaScript `ToNumber` applied to a field read (`none` = the field was
`undefined`), at the granularity the transform needs.  Strings are coerced
through the numeric grammar (JSON-style; `Number("+5")`, hex literals and
infinities are below granularity and coerce to `NaN` here). -/
def jsToNumber : Option Json → JsNum
  | none => .nan
  | some .null => .val 0
  | some (.bool b) => .val (if b then 1 else 0)
  | some (.num q) => .val q
  | some (.str s) =>
    (if s.trim = "" then .val 0
     else
       match parseNumber s.trim.toList with
       | some (q, []) => .val q
       | _ => .nan)
  | some (.arr _) => .nan
  | some (.obj _) => .nan

/-- One output record of the transform, `\x7btitle, description, final_price\x7d`.
`title`/`description` are passed through verbatim from the upstream record
(`none` models the `undefined` produced by a missing field, which the JSON
serializer omits). -/
structure TransformedProduct where
  title : Option Json
  description : Option Json
  final_price : JsNum

/-- The arrow body of `products.map(...)` in both sources:
`discount = price * (discountPercentage / 100)`;
`final_price = parseFloat((price - discount).toFixed(2))`.
`none` models the `TypeError` thrown when the element is `null` (accessing
`.price` on `null` throws; on any other non-object it yields `undefined`). -/
def transformProduct (p : Json) : Option TransformedProduct :=
  match p with
  | .null => none
  | _ =>
    let price := jsToNumber (p.member "price")
    let discount := price.mul ((jsToNumber (p.member "discountPercentage")).div (.val 100))
    some { title := p.member "title"
           description := p.member "description"
           final_price := (price.sub discount).toFixed2 }

/-- The `response.on('end')` try-block of both sources:
`JSON.parse(data).products` followed by `products.map(...)`.  An `.error`
result models the caught exception, carrying a diagnostic detail string
(standing in for `error.stack`). -/
def productsPipeline (data : String) : Except String (List TransformedProduct) :=
  match jsonParse data with
  | none => .error "SyntaxError: Unexpected token in JSON"
  | some top =>
    match top.member "products" with
    | some (.arr items) =>
      match items.mapM transformProduct with
      | some ts => .ok ts
      | none => .error "TypeError: Cannot read properties of null"
    | _ => .error "TypeError: products.map is not a function"

/-- A JavaScript value as it can appear in a decoded request-body field.
`undefined` stands for an absent field (JSON bodies cannot carry a literal
`undefined`); `object` stands for any array/object value, whose structure the
validator never inspects. -/
inductive JsValue where
  | undefined : JsValue
  | null : JsValue
  | bool : Bool → JsValue
  | num : JsNum → JsValue
  | str : String → JsValue
  | object : JsValue
deriving DecidableEq

/-- The decoded request body as the handler destructures it:
`let \x7b query, page = 1 \x7d = req.body`. -/
structure RequestBody where
  query : JsValue
  page : JsValue
deriving DecidableEq

/-- The destructuring default `page = 1`: it fires exactly when the `page`
field is `undefined` (in particular when it is absent); every other value,
including `null`, passes through. -/
def effectivePage (b : RequestBody) : JsValue :=
  match b.page with
  | .undefined => .num (.val 1)
  | v => v

/-- Messages contributed by the `query` checks: a non-string gets
"Query must be a string." and skips the length check; a string outside
length 3..10 gets the length message. -/
def queryMessages (query : JsValue) : List String :=
  match query with
  | .str s =>
    if s.length < 3 || 10 < s.length then
      ["Query length must be between 3 and 10 characters."]
    else []
  | _ => ["Query must be a string."]

/-- Messages contributed by the `page` checks: a non-number gets
"Page must be a number." and skips the range check; a number `< 1` gets the
range message (`NaN < 1` is false, so `NaN` contributes nothing). -/
def pageMessages (page : JsValue) : List String :=
  match page with
  | .num n =>
    if n.lt (.val 1) then ["Page must be greater than or equal to 1."]
    else []
  | _ => ["Page must be a number."]

/-- The full `errorMessages` array collected by the handler: both field
checks always run, query messages first. -/
def errorMessagesOf (b : RequestBody) : List String :=
  queryMessages b.query ++ pageMessages (effectivePage b)

/-- Fixed upstream page size. -/
def pageSize : ℕ := 2

/-- `skip = (page - 1) * pageSize` in JavaScript arithmetic. -/
def skipOf (page : JsNum) : JsNum :=
  (page.sub (.val 1)).mul (.val 2)

/-- Decimal rendering of a rational, matching JavaScript number-to-string for
the integers and finite decimal fractions that arise here (the shortest
round-trip printing of other doubles is below granularity). -/
def decimalString (q : ℚ) : String :=
  if q.den = 1 then toString q.num
  else
    match (List.range 30).find? (fun k => (q * (10 : ℚ) ^ (k + 1)).den = 1) with
    | some k =>
      let places := k + 1
      let ds := toString (q * (10 : ℚ) ^ places).num.natAbs
      let padded :=
        if ds.length < places + 1 then
          String.mk (List.replicate (places + 1 - ds.length) '0') ++ ds
        else ds
      (if q < 0 then "-" else "") ++ padded.dropRight places ++ "." ++ padded.takeRight places
    | none => "<nondecimal>"

/-- JavaScript string interpolation of a number. -/
def JsNum.toJsString : JsNum → String
  | .nan => "NaN"
  | .val q => decimalString q

/-- The coercion the template literal applies to the validated `query`
(a string interpolates as itself; other cases are unreachable after
validation succeeds). -/
def jsStringOf : JsValue → String
  | .str s => s
  | _ => ""

/-- The numeric value of the validated `page` (other cases are unreachable
after validation succeeds). -/
def jsNumOf : JsValue → JsNum
  | .num n => n
  | _ => .nan

/-- The outbound URL built by the template literal
`https://dummyjson.com/products/search?q=$\x7bquery\x7d&limit=$\x7bpageSize\x7d&skip=$\x7bskip\x7d`:
the query value is concatenated in verbatim, with no percent-encoding. -/
def searchUrl (query : String) (skip : JsNum) : String :=
  "https://dummyjson.com/products/search?q=" ++ query ++ "&limit=" ++
    toString pageSize ++ "&skip=" ++ skip.toJsString

/-- A response payload, without the wall-clock `dateTime` fields. -/
inductive ResponseBody where
  /-- `\x7bcode, message, fault?\x7d` — the uniform error shape. -/
  | error : ℕ → String → Option String → ResponseBody
  /-- The bare array of transformed products (index.js success payload). -/
  | products : List TransformedProduct → ResponseBody
  /-- part_000 success payload: `\x7btype. 'messageOut', body. the array, dateTime\x7d`. -/
  | wrapped : List TransformedProduct → ResponseBody
  /-- The body-parse middleware payload:
  `\x7btype. 'messageOut', body. raw body, dateTime, fault\x7d`. -/
  | parseFailure : String → String → ResponseBody

/-- JavaScript `body.code` member access on a response payload: only the
uniform error shape carries a `code` field. -/
def codeField : ResponseBody → Option ℕ
  | .error c _ _ => some c
  | _ => none

/-- Whether a payload is the bare transformed-products array, with no
wrapping fields around it. -/
def isBareProductsArray : ResponseBody → Bool
  | .products _ => true
  | _ => false

/-- What the `POST /search` handler does after decoding, in both sources:
either it answers immediately with the validation error, or it issues
exactly one outbound HTTPS GET to the computed URL. -/
inductive HandlerStep where
  | respond : ResponseBody → HandlerStep
  | fetchUrl : String → HandlerStep

/-- The shared validation-and-dispatch block of `POST /search`
(identical in both sources). -/
def searchStep (b : RequestBody) : HandlerStep :=
  let msgs := errorMessagesOf b
  if 0 < msgs.length then
    .respond (.error 400 (String.intercalate " " msgs) none)
  else
    .fetchUrl (searchUrl (jsStringOf b.query) (skipOf (jsNumOf (effectivePage b))))

/-- The caller's declared response representation, as classified by
`res.format`'s matching of the `Accept` header against the offered types. -/
inductive AcceptKind where
  /-- `Accept` names (or best-matches) `application/json`. -/
  | jsonPref : AcceptKind
  /-- `Accept` names (or best-matches) `application/xml`. -/
  | xmlPref : AcceptKind
  /-- No `Accept` header: Express picks the first offered type (JSON). -/
  | nonePref : AcceptKind
  /-- Some other representation: the `default` branch runs (JSON). -/
  | otherPref : AcceptKind
deriving DecidableEq

/-- A serialized response: JSON, or XML under the given root element. -/
inductive Formatted where
  | json : ResponseBody → Formatted
  | xml : String → ResponseBody → Formatted

/-- index.js `formatResponse`: the `application/xml` branch serializes via
`js2xmlparser.parse("response", body)`; the `application/json` and `default`
branches (also taken when no `Accept` header is present) serialize as JSON. -/
def formatResponse (a : AcceptKind) (body : ResponseBody) : Formatted :=
  match a with
  | .xmlPref => .xml "response" body
  | _ => .json body

/-- An HTTP response as actually sent: status code and serialized payload. -/
structure Sent where
  status : ℕ
  payload : Formatted

/-- Sending a payload in index.js: every terminal routes through
`formatResponse`, and no code path ever calls `res.status`, so Express's
default status 200 is sent regardless of the payload. -/
def indexSend (a : AcceptKind) (body : ResponseBody) : Sent :=
  { status := 200, payload := formatResponse a body }

/-- Sending a payload in part_000 with an explicit `res.status(s).json(...)`
(or plain `res.json(...)`, in which case `s` is Express's default 200). -/
def part0Send (status : ℕ) (body : ResponseBody) : Sent :=
  { status := status, payload := .json body }

/-- Error message of the `https.get(...).on('error')` branch. -/
def fetchFailureMessage : String := "Failed to fetch products from external API"

/-- Error message of the `catch` around response parsing and transforming. -/
def parseFailureMessage : String := "Failed to parse response from external API"

/-- How one upstream call resolves: the `'error'` event with an error whose
stack is `errStack`, or the `'end'` event with the accumulated body text. -/
inductive UpstreamOutcome where
  | transportError : String → UpstreamOutcome
  | ended : String → UpstreamOutcome

/-- The payload index.js produces from an upstream outcome: the bare
transformed array on success, or one of the two 500 error shapes. -/
def indexUpstreamBody (o : UpstreamOutcome) : ResponseBody :=
  match o with
  | .transportError stk => .error 500 fetchFailureMessage (some stk)
  | .ended data =>
    match productsPipeline data with
    | .ok ts => .products ts
    | .error f => .error 500 parseFailureMessage (some f)

/-- The full index.js upstream reply: the payload above through
`formatResponse`, status 200 (index.js never calls `res.status`). -/
def indexUpstreamSent (a : AcceptKind) (o : UpstreamOutcome) : Sent :=
  indexSend a (indexUpstreamBody o)

/-- The full part_000 upstream reply: success wraps the array in the
`messageOut` object and is sent via `res.json` (status 200); both failure
branches send their error payload with `res.status(500)`. -/
def part0UpstreamSent (o : UpstreamOutcome) : Sent :=
  match o with
  | .transportError stk => part0Send 500 (.error 500 fetchFailureMessage (some stk))
  | .ended data =>
    match productsPipeline data with
    | .ok ts => part0Send 200 (.wrapped ts)
    | .error f => part0Send 500 (.error 500 parseFailureMessage (some f))

/-- `err.stack || 'No stack trace available'`. -/
def stackOr (stack : Option String) : String :=
  stack.getD "No stack trace available"

/-- An error object as it reaches the error-handling middleware, at the
granularity of the middleware's guard: whether it is a `SyntaxError`, its
`status`, whether it has a `body` property (and that property's raw text),
and its stack. -/
structure MiddlewareError where
  isSyntaxError : Bool
  status : ℕ
  hasBodyProp : Bool
  rawBody : String
  stack : Option String

/-- What the error middleware does with an error: catch it and answer with
the `messageOut` payload, or pass it on with `next(err)`, in which case
Express's built-in error handler answers instead. -/
inductive MiddlewareResult where
  | caught : ResponseBody → MiddlewareResult
  | passedOn : MiddlewareResult

/-- The error middleware of both sources.  Its guard is
`err instanceof SyntaxError && err.status === 400 && 'body' in err`; only an
error passing all three tests is converted into the `messageOut` payload
built from `err.body` and `err.stack`; every other error is handed to
`next(err)`. -/
def errorMiddleware (e : MiddlewareError) : MiddlewareResult :=
  if e.isSyntaxError && e.status == 400 && e.hasBodyProp then
    .caught (.parseFailure e.rawBody (stackOr e.stack))
  else .passedOn

/-- The error body-parser's JSON decoder signals on a malformed JSON body:
a `SyntaxError` with `status` 400 carrying the raw text in its `body`
property. -/
def malformedJsonError (raw : String) (stack : Option String) : MiddlewareError :=
  { isSyntaxError := true, status := 400, hasBodyProp := true
    rawBody := raw, stack := stack }

/-- The error body-parser-xml signals on a malformed XML body: xml2js/sax
deliver a plain `Error` — not a `SyntaxError`, and with no `body` property —
with `status` set to 400. -/
def malformedXmlError (stack : Option String) : MiddlewareError :=
  { isSyntaxError := false, status := 400, hasBodyProp := false
    rawBody := "", stack := stack }

/-- Who ultimately answers a body-parse error: the middleware's `messageOut`
payload, or Express's built-in error handler (a default error page carrying
the error's own status), when the guard passed the error on. -/
inductive ErrorReply where
  | middlewarePayload : Sent → ErrorReply
  | expressDefault : ℕ → ErrorReply

/-- index.js reply to a body-parse error: a caught error becomes the
`messageOut` payload through `formatResponse` (no `res.status` call, so
HTTP 200); a passed-on error is answered by Express's default handler. -/
def indexBodyErrorReply (a : AcceptKind) (e : MiddlewareError) : ErrorReply :=
  match errorMiddleware e with
  | .caught payload => .middlewarePayload (indexSend a payload)
  | .passedOn => .expressDefault e.status

/-- part_000 reply to a body-parse error: a caught error is sent with
`res.status(400).json(...)`; a passed-on error goes to Express's default
handler. -/
def part0BodyErrorReply (e : MiddlewareError) : ErrorReply :=
  match errorMiddleware e with
  | .caught payload => .middlewarePayload (part0Send 400 payload)
  | .passedOn => .expressDefault e.status

/-- part_000 registers only `bodyParser.json()`, so a request of another
content type reaches the handler with `req.body` undefined (`none` here);
destructuring `\x7b query, page = 1 \x7d` from `undefined` then throws a
`TypeError` before validation ever runs, and Express's built-in handler
answers it — the `messageOut` payload is never built for such a request. -/
def part0Handle (body : Option RequestBody) : Except String HandlerStep :=
  match body with
  | some b => .ok (searchStep b)
  | none => .error "TypeError: Cannot destructure property of undefined"

/-! ### Sample data used by concrete witnesses and counterexamples -/

/-- A well-formed upstream response body with two products:
price 100 at 20% discount, and price 10 at 10% discount. -/
def sampleData : String :=
  "\x7b\"products\":[\x7b\"title\":\"A\",\"description\":\"B\",\"price\":100,\"discountPercentage\":20\x7d,\x7b\"title\":\"C\",\"description\":\"D\",\"price\":10,\"discountPercentage\":10\x7d]\x7d"

/-- The transform of `sampleData`: final prices 80.00 and 9.00. -/
def sampleTs : List TransformedProduct :=
  [{ title := some (.str "A"), description := some (.str "B"), final_price := .val 80 },
   { title := some (.str "C"), description := some (.str "D"), final_price := .val 9 }]

/-- An upstream body whose `products` array is empty. -/
def emptyProductsData : String := "\x7b\"products\":[]\x7d"

/-! ### Helper lemmas -/

/-- `mapM` over `Option` preserves length and order: element `i` of the output
is the image of element `i` of the input. -/
theorem mapM_option_index {α β : Type} (f : α → Option β) :
    ∀ (l : List α) (ts : List β), l.mapM f = some ts →
      ts.length = l.length ∧ ∀ i : ℕ, ts[i]? = (l[i]?).bind f := by
  intro l
  induction l with
  | nil =>
    intro ts h
    simp only [List.mapM_nil, pure, Option.some.injEq] at h
    subst h
    exact ⟨rfl, fun i => by simp⟩
  | cons a l ih =>
    intro ts h
    rw [List.mapM_cons] at h
    cases hfa : f a with
    | none => rw [hfa] at h; simp at h
    | some b =>
      rw [hfa] at h
      cases hml : l.mapM f with
      | none => rw [hml] at h; simp at h
      | some bs =>
        rw [hml] at h
        simp only [bind, Option.bind, pure, Option.some.injEq] at h
        subst h
        obtain ⟨hlen, hget⟩ := ih bs hml
        refine ⟨by simp [hlen], fun i => ?_⟩
        cases i with
        | zero => simp [hfa]
        | succ n => simp [hget n]

/-- Unfolding `searchUrl` against the literal with the page size inlined. -/
theorem searchUrl_append (q : String) (n : JsNum) :
    searchUrl q n =
      "https://dummyjson.com/products/search?q=" ++ q ++ "&limit=2&skip=" ++ n.toJsString := by
  have h : ∀ t : String,
      "&limit=" ++ (toString pageSize ++ ("&skip=" ++ t)) = "&limit=2&skip=" ++ t := by
    intro t
    rw [← String.append_assoc, ← String.append_assoc]
    rfl
  simp only [searchUrl, String.append_assoc]
  rw [h]

/-- The validation-success branch of `searchStep`, for both sources. -/
theorem searchStep_of_valid (b : RequestBody) (q : String) (p : ℚ)
    (hq : b.query = .str q) (hp : effectivePage b = .num (.val p))
    (h3 : 3 ≤ q.length) (h10 : q.length ≤ 10) (h1 : 1 ≤ p) :
    searchStep b = .fetchUrl
      ("https://dummyjson.com/products/search?q=" ++ q ++ "&limit=2&skip=" ++
        JsNum.toJsString (.val ((p - 1) * 2))) := by
  have hqm : queryMessages b.query = [] := by
    rw [hq]
    simp only [queryMessages]
    rw [if_neg]
    simp only [Bool.or_eq_true, decide_eq_true_eq, not_or]
    omega
  have hpm : pageMessages (effectivePage b) = [] := by
    rw [hp]
    simp only [pageMessages, JsNum.lt]
    rw [if_neg]
    simp only [decide_eq_true_eq, not_lt]
    exact h1
  have hmsgs : errorMessagesOf b = [] := by
    simp [errorMessagesOf, hqm, hpm]
  simp only [searchStep, hmsgs, List.length_nil, lt_self_iff_false, if_false]
  rw [hq, hp]
  simp only [jsStringOf, jsNumOf, skipOf, JsNum.sub, JsNum.mul]
  rw [searchUrl_append]

/-! ### Claims -/

/-- C1: for every decoded request body the validator checks all rules without
short-circuiting — query messages first (non-string, else length out of 3..10),
then page messages (non-number, else `page < 1`) — and when any message was
collected the handler answers with an error of code 400 whose message is
exactly the collected messages, in order, joined by a single space; in
particular query="ab", page=1 yields exactly the length message. -/
theorem validator_collects_all_rules (b : RequestBody) :
    errorMessagesOf b = queryMessages b.query ++ pageMessages (effectivePage b)
    ∧ (∀ v : JsValue, (∀ s, v ≠ .str s) → queryMessages v = ["Query must be a string."])
    ∧ (∀ s : String, queryMessages (.str s) =
        if s.length < 3 || 10 < s.length then
          ["Query length must be between 3 and 10 characters."]
        else [])
    ∧ (∀ v : JsValue, (∀ n, v ≠ .num n) → pageMessages v = ["Page must be a number."])
    ∧ (∀ n : JsNum, pageMessages (.num n) =
        if n.lt (.val 1) then ["Page must be greater than or equal to 1."] else [])
    ∧ (errorMessagesOf b ≠ [] →
        searchStep b = .respond (.error 400 (String.intercalate " " (errorMessagesOf b)) none))
    ∧ searchStep ⟨.str "ab", .num (.val 1)⟩ =
        .respond (.error 400 "Query length must be between 3 and 10 characters." none)
    ∧ searchStep ⟨.num (.val 5), .num (.val 0)⟩ =
        .respond (.error 400
          "Query must be a string. Page must be greater than or equal to 1." none) := by
  refine ⟨rfl, ?_, fun s => rfl, ?_, fun n => rfl, ?_, ?_, ?_⟩
  · intro v hv
    cases v <;> first | rfl | exact absurd rfl (hv _)
  · intro v hv
    cases v <;> first | rfl | exact absurd rfl (hv _)
  · intro h
    have hlen : 0 < (errorMessagesOf b).length := List.length_pos.mpr h
    simp only [searchStep]
    rw [if_pos hlen]
  · with_unfolding_all rfl
  · with_unfolding_all rfl

/-- C1 witness: at query="ab", page=1 the message list is nonempty and the
handler answers with the joined messages under code 400. -/
theorem validator_collects_all_rules_witness :
    errorMessagesOf ⟨.str "ab", .num (.val 1)⟩ ≠ []
    ∧ searchStep ⟨.str "ab", .num (.val 1)⟩ =
        .respond (.error 400
          (String.intercalate " " (errorMessagesOf ⟨.str "ab", .num (.val 1)⟩)) none) := by
  have hne : errorMessagesOf ⟨.str "ab", .num (.val 1)⟩ ≠ [] := by
    have e : errorMessagesOf ⟨.str "ab", .num (.val 1)⟩ =
        ["Query length must be between 3 and 10 characters."] := by
      with_unfolding_all rfl
    rw [e]
    exact List.cons_ne_nil _ _
  exact ⟨hne, (validator_collects_all_rules ⟨.str "ab", .num (.val 1)⟩).2.2.2.2.2.1 hne⟩

/-- C2: each upstream product record maps to `(title, description,
final_price)` with `final_price = round2 (price - price * discountPercentage
/ 100)`, the map preserves upstream order, and in particular price 100 at 20%
gives 80.00 while price 10 at 10% gives 9.00. -/
theorem transformer_shape_and_rounding :
    (∀ (t d : Json) (p dp : ℚ),
      transformProduct (.obj [("title", t), ("description", d), ("price", .num p),
          ("discountPercentage", .num dp)]) =
        some { title := some t, description := some d,
               final_price := .val (round2 (p - p * dp / 100)) })
    ∧ (∀ (items : List Json) (ts : List TransformedProduct),
        items.mapM transformProduct = some ts →
          ts.length = items.length ∧ ∀ i : ℕ, ts[i]? = (items[i]?).bind transformProduct)
    ∧ (∀ t d : Json,
        transformProduct (.obj [("title", t), ("description", d), ("price", .num 100),
            ("discountPercentage", .num 20)]) =
          some { title := some t, description := some d, final_price := .val 80 })
    ∧ (∀ t d : Json,
        transformProduct (.obj [("title", t), ("description", d), ("price", .num 10),
            ("discountPercentage", .num 10)]) =
          some { title := some t, description := some d, final_price := .val 9 }) := by
  have key : ∀ (t d : Json) (p dp : ℚ),
      transformProduct (.obj [("title", t), ("description", d), ("price", .num p),
          ("discountPercentage", .num dp)]) =
        some { title := some t, description := some d,
               final_price := .val (round2 (p - p * dp / 100)) } := by
    intro t d p dp
    have mt : Json.member (.obj [("title", t), ("description", d), ("price", .num p),
        ("discountPercentage", .num dp)]) "title" = some t := by simp [Json.member]
    have md : Json.member (.obj [("title", t), ("description", d), ("price", .num p),
        ("discountPercentage", .num dp)]) "description" = some d := by simp [Json.member]
    have mp : Json.member (.obj [("title", t), ("description", d), ("price", .num p),
        ("discountPercentage", .num dp)]) "price" = some (.num p) := by simp [Json.member]
    have mdp : Json.member (.obj [("title", t), ("description", d), ("price", .num p),
        ("discountPercentage", .num dp)]) "discountPercentage" = some (.num dp) := by
      simp [Json.member]
    simp only [transformProduct, mt, md, mp, mdp]
    simp [jsToNumber, JsNum.mul, JsNum.div, JsNum.sub, JsNum.toFixed2, mul_div_assoc]
  refine ⟨key, mapM_option_index transformProduct, fun t d => ?_, fun t d => ?_⟩
  · rw [key t d 100 20]
    norm_num [round2]
  · rw [key t d 10 10]
    norm_num [round2]

/-- C2 witness: the transform of the two sample products evaluates to final
prices 80 and 9, and the order lemma applies to that concrete list. -/
theorem transformer_shape_and_rounding_witness :
    [Json.obj [("title", .str "A"), ("description", .str "B"), ("price", .num 100),
        ("discountPercentage", .num 20)],
     Json.obj [("title", .str "C"), ("description", .str "D"), ("price", .num 10),
        ("discountPercentage", .num 10)]].mapM transformProduct = some sampleTs
    ∧ sampleTs.length = 2 := by
  have h : [Json.obj [("title", .str "A"), ("description", .str "B"), ("price", .num 100),
        ("discountPercentage", .num 20)],
     Json.obj [("title", .str "C"), ("description", .str "D"), ("price", .num 10),
        ("discountPercentage", .num 10)]].mapM transformProduct = some sampleTs := by
    with_unfolding_all rfl
  exact ⟨h, (transformer_shape_and_rounding.2.1 _ sampleTs h).1⟩

/-- C3 (code bug): the spec requires the error payload's `code` field (400/500)
to be set as the actual HTTP status, and part_000 does set it, but index.js
routes every payload through `formatResponse`, which serializes with `res.json`
or `res.send` and never calls `res.status` — so even the 400 validation-error
payload is sent to the client with HTTP status 200. -/
theorem index_http_status_always_200 :
    searchStep ⟨.str "ab", .num (.val 1)⟩ =
      .respond (.error 400 "Query length must be between 3 and 10 characters." none)
    ∧ (indexSend .jsonPref
        (.error 400 "Query length must be between 3 and 10 characters." none)).status = 200
    ∧ (∀ (a : AcceptKind) (body : ResponseBody), (indexSend a body).status = 200)
    ∧ (part0Send 400
        (.error 400 "Query length must be between 3 and 10 characters." none)).status = 400 := by
  exact ⟨by with_unfolding_all rfl, rfl, fun a body => rfl, rfl⟩

/-- C4: whenever the query is a string of length 3..10 and the (defaulted)
page is a number ≥ 1, validation succeeds and the handler issues exactly one
outbound GET to
`https://dummyjson.com/products/search?q=<query>&limit=2&skip=<skip>` with
`skip = (page - 1) * 2` and the query concatenated in verbatim, with no
percent-encoding. -/
theorem valid_request_issues_one_fetch (b : RequestBody) (q : String) (p : ℚ)
    (hq : b.query = .str q) (hp : effectivePage b = .num (.val p))
    (h3 : 3 ≤ q.length) (h10 : q.length ≤ 10) (h1 : 1 ≤ p) :
    searchStep b = .fetchUrl
      ("https://dummyjson.com/products/search?q=" ++ q ++ "&limit=2&skip=" ++
        JsNum.toJsString (.val ((p - 1) * 2))) :=
  searchStep_of_valid b q p hq hp h3 h10 h1

/-- C4 witness: query "abc" with page 1 issues the GET with skip 0. -/
theorem valid_request_issues_one_fetch_witness :
    searchStep ⟨.str "abc", .num (.val 1)⟩ =
      .fetchUrl "https://dummyjson.com/products/search?q=abc&limit=2&skip=0" := by
  have h := valid_request_issues_one_fetch ⟨.str "abc", .num (.val 1)⟩ "abc" 1 rfl rfl
    (by decide) (by decide) le_rfl
  rw [h]
  with_unfolding_all rfl

/-- C5: the upstream call has exactly two failure modes, both converted to an
error payload (the handler is total, so neither crashes the process): a
transport failure yields code 500 with message exactly
"Failed to fetch products from external API" and fault set to the error
detail; an unparseable or wrongly-shaped body yields code 500 with message
exactly "Failed to parse response from external API" and fault set to the
error detail.  Every outcome is a success payload or one of these two. -/
theorem upstream_failure_modes (stk data f : String) :
    fetchFailureMessage = "Failed to fetch products from external API"
    ∧ parseFailureMessage = "Failed to parse response from external API"
    ∧ indexUpstreamBody (.transportError stk) = .error 500 fetchFailureMessage (some stk)
    ∧ part0UpstreamSent (.transportError stk) =
        part0Send 500 (.error 500 fetchFailureMessage (some stk))
    ∧ (productsPipeline data = .error f →
        indexUpstreamBody (.ended data) = .error 500 parseFailureMessage (some f)
        ∧ part0UpstreamSent (.ended data) =
            part0Send 500 (.error 500 parseFailureMessage (some f)))
    ∧ (∀ o : UpstreamOutcome,
        (∃ ts, indexUpstreamBody o = .products ts)
        ∨ (∃ e, indexUpstreamBody o = .error 500 fetchFailureMessage (some e))
        ∨ (∃ e, indexUpstreamBody o = .error 500 parseFailureMessage (some e))) := by
  refine ⟨rfl, rfl, rfl, rfl, ?_, ?_⟩
  · intro h
    constructor
    · simp [indexUpstreamBody, h]
    · simp [part0UpstreamSent, h]
  · intro o
    cases o with
    | transportError e => exact Or.inr (Or.inl ⟨e, rfl⟩)
    | ended data2 =>
      cases hp : productsPipeline data2 with
      | ok ts => exact Or.inl ⟨ts, by simp [indexUpstreamBody, hp]⟩
      | error e => exact Or.inr (Or.inr ⟨e, by simp [indexUpstreamBody, hp]⟩)

/-- C5 witness: a non-JSON upstream body hits the parse failure mode with the
exact message and the parser diagnostic as fault. -/
theorem upstream_failure_modes_witness :
    productsPipeline "not json" = .error "SyntaxError: Unexpected token in JSON"
    ∧ indexUpstreamBody (.ended "not json") =
        .error 500 parseFailureMessage (some "SyntaxError: Unexpected token in JSON") := by
  have h : productsPipeline "not json" = .error "SyntaxError: Unexpected token in JSON" := by
    with_unfolding_all rfl
  exact ⟨h, ((upstream_failure_modes "x" "not json"
    "SyntaxError: Unexpected token in JSON").2.2.2.2.1 h).1⟩

set_option maxRecDepth 10000 in
/-- C6 counterexample: on a concrete successful upstream body, part_000 does
not send the bare array — it wraps the transformed products in the
`messageOut` object (`type`/`body`/`dateTime` fields around the array). -/
theorem part0_success_payload_is_wrapped :
    part0UpstreamSent (.ended sampleData) = part0Send 200 (.wrapped sampleTs)
    ∧ isBareProductsArray (.wrapped sampleTs) = false := by
  exact ⟨by with_unfolding_all rfl, rfl⟩

/-- C6 (amended): on upstream success index.js answers 200 with exactly the
bare array of transformed products (as JSON, or as XML under root `response`),
while part_000 answers 200 with the array wrapped in the `messageOut` object. -/
theorem success_response_shape (a : AcceptKind) (data : String)
    (ts : List TransformedProduct) (h : productsPipeline data = .ok ts) :
    indexUpstreamSent a (.ended data) =
      { status := 200, payload := formatResponse a (.products ts) }
    ∧ formatResponse .jsonPref (.products ts) = .json (.products ts)
    ∧ formatResponse .xmlPref (.products ts) = .xml "response" (.products ts)
    ∧ part0UpstreamSent (.ended data) = part0Send 200 (.wrapped ts) := by
  refine ⟨?_, rfl, rfl, ?_⟩
  · simp [indexUpstreamSent, indexSend, indexUpstreamBody, h]
  · simp [part0UpstreamSent, h]

/-- C6 (amended) witness: a concrete success (empty products array) evaluates
to status 200 with the bare (empty) array as JSON body in index.js. -/
theorem success_response_shape_witness :
    productsPipeline emptyProductsData = .ok []
    ∧ indexUpstreamSent .jsonPref (.ended emptyProductsData) =
        { status := 200, payload := .json (.products []) } := by
  have h : productsPipeline emptyProductsData = .ok [] := by
    with_unfolding_all rfl
  exact ⟨h, (success_response_shape .jsonPref emptyProductsData [] h).1⟩

/-- C7: the response negotiator serializes a payload as XML under root
`response` exactly when the caller declares XML; a declared JSON preference,
no declared preference, and any other representation all serialize as JSON. -/
theorem negotiator_dispatch (b : ResponseBody) :
    formatResponse .xmlPref b = .xml "response" b
    ∧ (∀ a : AcceptKind, a ≠ .xmlPref → formatResponse a b = .json b)
    ∧ formatResponse .jsonPref b = .json b
    ∧ formatResponse .nonePref b = .json b
    ∧ formatResponse .otherPref b = .json b := by
  refine ⟨rfl, ?_, rfl, rfl, rfl⟩
  intro a h
  cases a with
  | xmlPref => exact absurd rfl h
  | jsonPref => rfl
  | nonePref => rfl
  | otherPref => rfl

/-- C7 witness: an unrecognized representation falls back to JSON. -/
theorem negotiator_dispatch_witness :
    AcceptKind.otherPref ≠ AcceptKind.xmlPref
    ∧ formatResponse .otherPref (.products []) = .json (.products []) :=
  ⟨by decide, (negotiator_dispatch (.products [])).2.1 .otherPref (by decide)⟩

/-- C8 counterexample: the payload the middleware builds for a malformed JSON
body is the `messageOut` object carrying the raw body and a fault — it has no
`code` (and no `message`) field, so it is not an `ErrorResponse` with code
400; in index.js it is even sent with HTTP status 200.  And a malformed XML
body never reaches that payload at all: its plain-`Error` shape fails the
middleware guard and is passed to Express's default handler. -/
theorem body_parse_payload_has_no_code :
    errorMiddleware (malformedJsonError "bad body" none) =
      .caught (.parseFailure "bad body" "No stack trace available")
    ∧ codeField (.parseFailure "bad body" "No stack trace available") = none
    ∧ indexBodyErrorReply .jsonPref (malformedJsonError "bad body" none) =
        .middlewarePayload
          { status := 200, payload := .json (.parseFailure "bad body" "No stack trace available") }
    ∧ errorMiddleware (malformedXmlError none) = .passedOn :=
  ⟨rfl, rfl, rfl, rfl⟩

/-- C8 (amended): a malformed JSON body is caught by the error middleware —
its guard demands a `SyntaxError` with status 400 and a `body` property — and
answered without crashing: the payload is the `messageOut` object carrying
the raw body and a diagnostic fault (the error stack, or a placeholder), with
no `code` or `message` field; part_000 sends it with HTTP status 400, while
index.js routes it through `formatResponse` and sends it with HTTP status
200.  A malformed XML body does not take this path: its parse error is a
plain `Error` without a `body` property, so the guard passes it on and
Express's built-in handler answers (in index.js); part_000 has no XML decoder
at all, so an XML-typed body leaves `req.body` undefined and the handler's
destructuring throws before validation, again answered by Express's default
handler, never by the `messageOut` payload. -/
theorem body_parse_error_handling (a : AcceptKind) (raw : String) (stk : Option String) :
    errorMiddleware (malformedJsonError raw stk) = .caught (.parseFailure raw (stackOr stk))
    ∧ indexBodyErrorReply a (malformedJsonError raw stk) =
        .middlewarePayload
          { status := 200, payload := formatResponse a (.parseFailure raw (stackOr stk)) }
    ∧ part0BodyErrorReply (malformedJsonError raw stk) =
        .middlewarePayload
          { status := 400, payload := .json (.parseFailure raw (stackOr stk)) }
    ∧ codeField (.parseFailure raw (stackOr stk)) = none
    ∧ errorMiddleware (malformedXmlError stk) = .passedOn
    ∧ indexBodyErrorReply a (malformedXmlError stk) = .expressDefault 400
    ∧ (∀ e : MiddlewareError, e.hasBodyProp = false → errorMiddleware e = .passedOn)
    ∧ part0Handle none = .error "TypeError: Cannot destructure property of undefined"
    ∧ (∀ b : RequestBody, part0Handle (some b) = .ok (searchStep b))
    ∧ stackOr none = "No stack trace available"
    ∧ (∀ s : String, stackOr (some s) = s) := by
  refine ⟨rfl, rfl, rfl, rfl, rfl, rfl, ?_, rfl, fun b => rfl, rfl, fun s => rfl⟩
  intro e h
  simp [errorMiddleware, h]

/-- C8 (amended) witness: the XML parse error concretely fails the guard's
`body`-property test and is passed on to Express's default handler. -/
theorem body_parse_error_handling_witness :
    (malformedXmlError none).hasBodyProp = false
    ∧ errorMiddleware (malformedXmlError none) = .passedOn :=
  ⟨rfl, (body_parse_error_handling .jsonPref "x" none).2.2.2.2.2.2.1
    (malformedXmlError none) rfl⟩

/-- C9: an absent `page` destructures to the default 1 before validation, so a
valid query with no page passes validation and the upstream call uses
skip = 0. -/
theorem page_defaults_to_one (q : String) (h3 : 3 ≤ q.length) (h10 : q.length ≤ 10) :
    effectivePage ⟨.str q, .undefined⟩ = .num (.val 1)
    ∧ errorMessagesOf ⟨.str q, .undefined⟩ = []
    ∧ searchStep ⟨.str q, .undefined⟩ = .fetchUrl
        ("https://dummyjson.com/products/search?q=" ++ q ++ "&limit=2&skip=" ++
          JsNum.toJsString (.val 0))
    ∧ JsNum.toJsString (.val 0) = "0" := by
  refine ⟨rfl, ?_, ?_, by with_unfolding_all rfl⟩
  · have hqm : queryMessages (JsValue.str q) = [] := by
      simp only [queryMessages]
      rw [if_neg]
      simp only [Bool.or_eq_true, decide_eq_true_eq, not_or]
      omega
    simp [errorMessagesOf, effectivePage, hqm, pageMessages, JsNum.lt]
  · have h := searchStep_of_valid ⟨.str q, .undefined⟩ q 1 rfl rfl h3 h10 le_rfl
    rw [h]
    norm_num

/-- C9 witness: query "abc" with no page passes validation and fetches with
skip = 0. -/
theorem page_defaults_to_one_witness :
    errorMessagesOf ⟨.str "abc", .undefined⟩ = []
    ∧ searchStep ⟨.str "abc", .undefined⟩ =
        .fetchUrl "https://dummyjson.com/products/search?q=abc&limit=2&skip=0" := by
  have h := page_defaults_to_one "abc" (by decide) (by decide)
  refine ⟨h.2.1, ?_⟩
  rw [h.2.2.1]
  with_unfolding_all rfl

/-- C10 counterexample: the non-integral page 1.5 is indeed accepted, but its
skip is (1.5 − 1) * 2 = 1, which is integral and interpolates into the
upstream URL as "1" — not a non-integral skip as the claim states. -/
theorem page_three_halves_integral_skip :
    pageMessages (.num (.val (3 / 2))) = []
    ∧ skipOf (.val (3 / 2)) = .val 1
    ∧ (1 : ℚ).den = 1
    ∧ JsNum.toJsString (skipOf (.val (3 / 2))) = "1" := by
  refine ⟨?_, ?_, rfl, ?_⟩ <;> with_unfolding_all rfl

/-- C10 (amended): the validator accepts `page` exactly when it is of number
type and not `< 1`; it accepts non-positive-integer numbers, e.g. 1.5 (whose
skip (page−1)*2 = 1 is integral; a page of 1.25 gives the non-integral skip
0.5) and `NaN` (of number type, and `NaN < 1` is false, so it passes and skip
becomes `NaN` in the URL); the default 1 applies only when page is absent, so
an explicit `null` page fails with "Page must be a number." instead of
defaulting. -/
theorem page_acceptance_exact (v : JsValue) :
    (pageMessages v = [] ↔ ∃ n : JsNum, v = .num n ∧ n.lt (.val 1) = false)
    ∧ pageMessages (.num (.val (3 / 2))) = []
    ∧ skipOf (.val (3 / 2)) = .val 1
    ∧ pageMessages (.num (.val (5 / 4))) = []
    ∧ skipOf (.val (5 / 4)) = .val (1 / 2)
    ∧ ((1 : ℚ) / 2).den ≠ 1
    ∧ pageMessages (.num .nan) = []
    ∧ JsNum.lt .nan (.val 1) = false
    ∧ skipOf .nan = .nan
    ∧ JsNum.toJsString (skipOf .nan) = "NaN"
    ∧ pageMessages .null = ["Page must be a number."]
    ∧ (∀ q : JsValue, effectivePage ⟨q, .null⟩ = .null) := by
  refine ⟨?_, by with_unfolding_all rfl, by with_unfolding_all rfl,
    by with_unfolding_all rfl, by with_unfolding_all rfl, ?_,
    rfl, rfl, rfl, rfl, rfl, fun q => rfl⟩
  · constructor
    · intro h
      cases v with
      | num n =>
        refine ⟨n, rfl, ?_⟩
        by_contra hb
        rw [Bool.not_eq_false] at hb
        simp [pageMessages, hb] at h
      | undefined => simp [pageMessages] at h
      | null => simp [pageMessages] at h
      | bool c => simp [pageMessages] at h
      | str s => simp [pageMessages] at h
      | object => simp [pageMessages] at h
    · rintro ⟨n, rfl, hn⟩
      simp [pageMessages, hn]
  · intro h
    have e : ((1 : ℚ) / 2).den = 2 := by with_unfolding_all rfl
    rw [e] at h
    cases h

end LatvenergoTask
